import Mathlib

/-
Verification of the query-construction and result-normalization core of the
edu-assist repository (College Scorecard search tools).

The definitions below are shallow embeddings of the Python source:
  - src/tools/programs_search.py  (argument validation, award-level merge,
    grouping of flat result rows into institution cards)
  - src/tools/schools_search.py   (location-mode validation, field-profile
    union, post-fetch card construction)
  - src/tools/school_detail.py    (argument validation, profile field union)

Python conventions carried over explicitly:
  - optional values are Option; Python truthiness of a string value
    (None and the empty string are falsy) is the function truthyStr;
  - Python dicts preserve insertion order, so the by-id accumulation dict of
    programs_search is modeled as a list of cards with unique ids, extended
    at the back on first sight of an id;
  - pydantic v2 runs model_validator(mode := before) on the raw input first,
    then field validators in field declaration order; a field validator sees
    only previously validated fields through ValidationInfo.data.
-/

namespace EduAssist

/-! ## Generic helpers -/

/-- First-seen-order deduplication, accumulating onto an already seen list.
Models the seen-set plus append loop used in `_merge_award_levels` and the
insertion-ordered key set of a Python dict or set. -/
def dedupInto {α : Type} [DecidableEq α] (seen : List α) (l : List α) : List α :=
  l.foldl (fun acc x => if x ∈ acc then acc else acc ++ [x]) seen

/-- First-seen-order deduplication of a list. -/
def dedupKeep {α : Type} [DecidableEq α] (l : List α) : List α :=
  dedupInto [] l

/-- Python truthiness of an optional string: None and the empty string are
falsy, every other string is truthy. -/
def truthyStr : Option String → Bool
  | none => false
  | some s => !s.isEmpty

/-- Boolean success test for an Except value (validation did not raise). -/
def isOkE {ε α : Type} : Except ε α → Bool
  | .ok _ => true
  | .error _ => false

/-! ## Program search: data model of flat upstream rows and grouped cards

Source: src/tools/programs_search.py, STEP 6 of programs_search. -/

/-- One flat result row of the upstream response, restricted to the fields
requested by FOS_FIELDS (dotted keys flattened into record fields). -/
structure ProgRow where
  id : Option Int
  name : Option String
  city : Option String
  state : Option String
  cip : Option String
  title : Option String
  credential : Option Int
  earningsHighQ : Option Int
  debtMedian : Option Int
deriving DecidableEq

/-- The program payload extracted from one row (the prog dict of the source). -/
structure ProgramEntry where
  cip : Option String
  title : Option String
  credential : Option Int
  earningsHighQ : Option Int
  debtMedian : Option Int
deriving DecidableEq

/-- An institution card with its accumulated matching program entries. -/
structure ProgCard where
  id : Int
  name : Option String
  city : Option String
  state : Option String
  programs : List ProgramEntry
deriving DecidableEq

/-- The program payload of a row. -/
def progOf (r : ProgRow) : ProgramEntry :=
  { cip := r.cip, title := r.title, credential := r.credential,
    earningsHighQ := r.earningsHighQ, debtMedian := r.debtMedian }

/-- The guard of the source: a row adds a program entry only when it has a
truthy CIP code or a truthy title (dropped rows are the privacy-suppressed
ones; note an empty string is falsy in Python). -/
def contributes (r : ProgRow) : Bool := truthyStr r.cip || truthyStr r.title

/-- The program entries a single row adds to the card of its institution. -/
def entryList (r : ProgRow) : List ProgramEntry :=
  if contributes r then [progOf r] else []

/-- The institution ids of a card list, in card order. -/
def idsOf (cards : List ProgCard) : List Int := cards.map ProgCard.id

/-- One iteration of the grouping loop of programs_search: a row lacking an
id is skipped; a row whose id was already seen appends its program payload
(when contributing) to the existing card; otherwise a fresh card is created
at the back, preserving first-seen order as the insertion-ordered dict does. -/
def addRow (cards : List ProgCard) (row : ProgRow) : List ProgCard :=
  match row.id with
  | none => cards
  | some i =>
    if i ∈ idsOf cards then
      cards.map (fun c =>
        if c.id = i then { c with programs := c.programs ++ entryList row } else c)
    else
      cards ++ [{ id := i, name := row.name, city := row.city, state := row.state,
                  programs := entryList row }]

/-- The grouping pass of programs_search STEP 6: a single linear fold over
the upstream rows, returning the cards in first-seen institution order. -/
def normalizePrograms (rows : List ProgRow) : List ProgCard :=
  rows.foldl addRow []

/-- The program list recorded for institution i (empty when no card exists). -/
def programsFor (cards : List ProgCard) (i : Int) : List ProgramEntry :=
  ((cards.find? (fun c => c.id == i)).map ProgCard.programs).getD []

/-! ### Concrete rows used in the claim instances -/

/-- A row for institution 10 carrying one program. -/
def exRow1 : ProgRow :=
  { id := some 10, name := some "Alpha University", city := some "Albany", state := some "NY",
    cip := some "11.0101", title := some "Computer Science", credential := some 3,
    earningsHighQ := some 98765, debtMedian := some 15000 }

/-- A row for institution 11 carrying one program. -/
def exRow2 : ProgRow :=
  { id := some 11, name := some "Beta College", city := some "Buffalo", state := some "NY",
    cip := some "51.3801", title := some "Nursing", credential := some 2,
    earningsHighQ := none, debtMedian := none }

/-- A second row for institution 10 carrying one program. -/
def exRow3 : ProgRow :=
  { id := some 10, name := some "Alpha University", city := some "Albany", state := some "NY",
    cip := some "11.0701", title := some "Computer Programming", credential := some 3,
    earningsHighQ := none, debtMedian := none }

/-- A privacy-suppressed row for institution 7: blank CIP code and blank title. -/
def exBlankRow7 : ProgRow :=
  { id := some 7, name := some "Gamma Institute", city := none, state := none,
    cip := some "", title := some "", credential := none,
    earningsHighQ := none, debtMedian := none }

/-- A contributing row for institution 7. -/
def exGoodRow7 : ProgRow :=
  { id := some 7, name := some "Gamma Institute", city := none, state := none,
    cip := some "11.0101", title := some "Computer Science", credential := some 3,
    earningsHighQ := none, debtMedian := none }

/-- A row for institution 5 with blank program data only. -/
def exBlankRow5 : ProgRow :=
  { id := some 5, name := some "Quiet College", city := none, state := none,
    cip := some "", title := some "", credential := none,
    earningsHighQ := none, debtMedian := none }

/-! ## School search: location-mode validation

Source: src/tools/schools_search.py, SchoolsSearchArgs._validate_location_mode,
a pydantic model_validator(mode := before) that sees the raw field values. -/

/-- The raw location fields of a school search request (the values the
before-mode model validator reads; range checks on the coordinates happen
later, during field validation, and are not part of this validator). -/
structure SchoolsRaw where
  state : Option String
  city : Option String
  latitude : Option Float
  longitude : Option Float

/-- The two distinct ValueError messages the validator can raise. -/
inductive LocError where
  | modeSelection
  | coordPair
deriving DecidableEq

/-- has_latlon of the source: at least one coordinate was supplied. -/
def hasLatlon (v : SchoolsRaw) : Bool := v.latitude.isSome || v.longitude.isSome

/-- has_citystate of the source: city and state are both truthy. -/
def hasCitystate (v : SchoolsRaw) : Bool := truthyStr v.city && truthyStr v.state

/-- has_state_only of the source: state supplied, city absent, and no
coordinate supplied. -/
def hasStateOnly (v : SchoolsRaw) : Bool :=
  v.state.isSome && v.city.isNone && !hasLatlon v

/-- sum(modes) of the source. -/
def modeCount (v : SchoolsRaw) : Nat :=
  (cond (hasLatlon v) 1 0) + (cond (hasCitystate v) 1 0) + (cond (hasStateOnly v) 1 0)

/-- The _validate_location_mode validator: the mode-selection error when the
signal count differs from one, then the coordinate-pair error when a lone
coordinate was supplied, else success. -/
def validateLocationMode (v : SchoolsRaw) : Except LocError SchoolsRaw :=
  if modeCount v ≠ 1 then .error .modeSelection
  else if hasLatlon v && (v.latitude.isNone || v.longitude.isNone) then .error .coordPair
  else .ok v

/-- A location-mode count following the words of the claim (C2): the three
modes are state-only, city+state and coordinates; the state mode counts as
populated when a state is supplied without a city, and the coordinate mode
when any coordinate is supplied.  Under this reading a state together with
both coordinates populates two modes. -/
def claimPopulatedModes (v : SchoolsRaw) : Nat :=
  (cond (v.latitude.isSome || v.longitude.isSome) 1 0) +
    (cond (v.city.isSome && v.state.isSome) 1 0) +
    (cond (v.state.isSome && v.city.isNone) 1 0)

/-- A filter supplying a state together with both coordinates. -/
def exStateWithCoords : SchoolsRaw :=
  { state := some "NY", city := none, latitude := some 40.0, longitude := some (-70.0) }

/-- A filter supplying only a latitude. -/
def exLatOnly : SchoolsRaw :=
  { state := none, city := none, latitude := some 40.0, longitude := none }

/-! ## Program search: argument validation

Source: src/tools/programs_search.py, ProgramsSearchArgs.  The raw input
fields below use the declaration order of the source model (pagination and
the nesting flag are unconstrained by the validators and are omitted).  The
field named cip_prefix in the source is rendered cipPre here. -/

/-- Python str.strip(): drop leading and trailing whitespace.  Defined over
the character list of the string so that it reduces by computation. -/
def pyStrip (s : String) : String :=
  String.mk (((s.data.dropWhile Char.isWhitespace).reverse.dropWhile Char.isWhitespace).reverse)

/-- Python str.lower(), character-wise. -/
def pyLower (s : String) : String := String.mk (s.data.map Char.toLower)

/-- Python str.upper(), character-wise. -/
def pyUpper (s : String) : String := String.mk (s.data.map Char.toUpper)

/-- AWARD_LEVELS_MAP of the source: friendly names to credential codes. -/
def AWARD_LEVELS_MAP : List (String × List Int) :=
  [("certificate", [1]), ("associate", [2]), ("bachelor", [3]),
   ("masters", [5]), ("master", [5]), ("doctoral", [6]), ("doctorate", [6])]

/-- AWARD_LEVELS_MAP.get(name.lower()) followed by the truthiness test
`if codes:` of the source: a missing name, like an empty code list, adds
nothing. -/
def awardCodesFor (name : String) : List Int :=
  match AWARD_LEVELS_MAP.lookup (pyLower name) with
  | none => []
  | some codes => if codes.isEmpty then [] else codes

/-- The body of _merge_award_levels, as a function of its two data sources:
the raw numeric codes and the named levels.  Raw codes come first, then the
codes of each known name in order; the merged list is deduplicated keeping
first occurrences; `return deduped or None` maps the empty list to None. -/
def mergeAwardLevels (rawLevels : Option (List Int)) (named : Option (List String)) :
    Option (List Int) :=
  let merged := rawLevels.getD [] ++ (named.getD []).foldl (fun acc n => acc ++ awardCodesFor n) []
  let deduped := dedupKeep merged
  if deduped.isEmpty then none else some deduped

/-- The raw input of ProgramsSearchArgs, fields in declaration order. -/
structure ProgramsRawInput where
  cipPre : Option String
  programText : Option String
  state : Option String
  control : Option String
  awardLevels : Option (List Int)
  awardLevelsNamed : Option (List String)
deriving DecidableEq

/-- The validated ProgramsSearchArgs model. -/
structure ProgramsArgs where
  cipPre : Option String
  programText : Option String
  state : Option String
  control : Option String
  awardLevels : Option (List Int)
  awardLevelsNamed : Option (List String)
deriving DecidableEq

/-- _strip_text of the source: strip a string value, pass None through. -/
def stripText : Option String → Option String
  | none => none
  | some s => some (pyStrip s)

/-- _norm_state of the source: uppercase a truthy value, keep None and the
empty string unchanged. -/
def normState : Option String → Option String
  | none => none
  | some s => if s.isEmpty then some s else some (pyUpper s)

/-- The fields validated before award_levels in declaration order: this is
exactly the content of ValidationInfo.data when the award_levels field
validator runs under pydantic v2. -/
structure AwardInfoData where
  cipPre : Option String
  programText : Option String
  state : Option String
  control : Option String

/-- values.get of the key award_levels_named on the data visible to the
award_levels validator.  The field award_levels_named is declared after
award_levels in the source model, and pydantic v2 exposes only previously
validated fields through ValidationInfo.data, so the lookup always misses. -/
def awardInfoNamed (_ : AwardInfoData) : Option (List String) := none

/-- The validation pipeline of ProgramsSearchArgs: first the before-mode
model validator _at_least_one_filter on the raw values (plain Python
truthiness, no trimming), then the field validators in declaration order,
with _merge_award_levels reading award_levels_named through the data of the
fields validated so far. -/
def validateProgramsArgs (v : ProgramsRawInput) : Except String ProgramsArgs :=
  if !(truthyStr v.cipPre || truthyStr v.programText) then
    .error "Provide at least one filter: cip_prefix or program_text."
  else
    let cip := v.cipPre
    let text := stripText v.programText
    let st := normState v.state
    let ctl := v.control
    let info : AwardInfoData := { cipPre := cip, programText := text, state := st, control := ctl }
    let levels := mergeAwardLevels v.awardLevels (awardInfoNamed info)
    .ok { cipPre := cip, programText := text, state := st, control := ctl,
          awardLevels := levels, awardLevelsNamed := v.awardLevelsNamed }

/-- Raw arguments supplying numeric code 2 together with the named levels
bachelor and an unknown name. -/
def exMergeArgs : ProgramsRawInput :=
  { cipPre := some "11.01", programText := none, state := none, control := none,
    awardLevels := some [2], awardLevelsNamed := some ["bachelor", "unknown-level"] }

/-- Raw arguments whose only filter is a whitespace-only title keyword. -/
def exBlankText : ProgramsRawInput :=
  { cipPre := none, programText := some "   ", state := none, control := none,
    awardLevels := none, awardLevelsNamed := none }

/-! ## Post-fetch result handling

Source: schools_search STEP 6 and 7, programs_search STEP 6 and 7.  Both
tools, despite their Dict return annotation and their docstrings promising
a cards list plus metadata, return a formatted string on every path; an
empty result short-circuits into a fixed no-results message before any card
or metadata value is assembled.  The outcome type below records which
branch was taken and the data the summary string is built from. -/

/-- One flat row of a school-search response. -/
structure SchoolRow where
  id : Option Int
  name : Option String
  city : Option String
  state : Option String
  url : Option String
deriving DecidableEq

/-- The lightweight card built from one school row. -/
structure SchoolCard where
  id : Option Int
  name : Option String
  city : Option String
  state : Option String
  url : Option String
deriving DecidableEq

/-- The optional metadata block of an upstream response. -/
structure RespMetadata where
  total : Option Nat
  page : Option Nat
deriving DecidableEq

/-- An upstream school-search response document. -/
structure SchoolsResponse where
  results : List SchoolRow
  metadata : Option RespMetadata
deriving DecidableEq

/-- What schools_search returns after the fetch: either the fixed
no-results message, or a summary built from the cards and the metadata
values (total defaulting to the row count, page to the requested page). -/
inductive SchoolsOutcome where
  | noMatches (message : String)
  | summary (cards : List SchoolCard) (total : Nat) (currentPage : Nat)
deriving DecidableEq

/-- The card of one school row (STEP 6 of schools_search). -/
def schoolCardOf (r : SchoolRow) : SchoolCard :=
  { id := r.id, name := r.name, city := r.city, state := r.state, url := r.url }

/-- STEP 6 and 7 of schools_search, after fetch_json returned: the empty
results list short-circuits into the no-results message; otherwise cards
are built row by row and the metadata values are read with defaults. -/
def schoolsPostFetch (resp : SchoolsResponse) (argsPage : Nat) : SchoolsOutcome :=
  if resp.results.isEmpty then
    .noMatches "No schools found matching your criteria. Try broadening your search parameters."
  else
    .summary (resp.results.map schoolCardOf)
      ((resp.metadata.bind RespMetadata.total).getD resp.results.length)
      ((resp.metadata.bind RespMetadata.page).getD argsPage)

/-- An upstream program-search response document. -/
structure ProgramsResponse where
  results : List ProgRow
  metadata : Option RespMetadata
deriving DecidableEq

/-- What programs_search returns after the fetch. -/
inductive ProgramsOutcome where
  | noMatches (message : String)
  | summary (cards : List ProgCard) (total : Nat) (currentPage : Nat)
deriving DecidableEq

/-- STEP 6 and 7 of programs_search: group the rows into cards, then
short-circuit into the no-results message when the card list is empty,
else summarize with metadata defaults (total defaulting to the card
count). -/
def programsPostFetch (resp : ProgramsResponse) (argsPage : Nat) : ProgramsOutcome :=
  let cards := normalizePrograms resp.results
  if cards.isEmpty then
    .noMatches "No programs found matching your criteria. Try broadening your search parameters."
  else
    .summary cards ((resp.metadata.bind RespMetadata.total).getD cards.length)
      ((resp.metadata.bind RespMetadata.page).getD argsPage)

/-! ## School search: field-profile union

Source: schools_search STEP 1.  The fields parameter is built by joining a
Python set comprehension over the profiles; the set holds the union of the
split field lists, but a set has no defined iteration order — with default
hash randomization two interpreter runs may join the same set in different
orders.  fieldUnion below enumerates the elements of that set in first-seen
order; any permutation of it is a possible enumeration of the set. -/

/-- Helper for splitComma: split a character list at every comma. -/
def splitCommaAux : List Char → List (List Char)
  | [] => [[]]
  | c :: cs =>
    let rest := splitCommaAux cs
    if c = ',' then [] :: rest
    else
      match rest with
      | [] => [[c]]
      | g :: gs => (c :: g) :: gs

/-- Python str.split of a comma: the empty string splits into one empty
piece.  Defined over the character list so that it reduces by computation. -/
def splitComma (s : String) : List String :=
  (splitCommaAux s.data).map String.mk

/-- FIELDSETS of schools_search. -/
def FIELDSETS : List (String × String) :=
  [("basic",
    "id,school.name,school.city,school.state,location.lat,location.lon,school.school_url"),
   ("admissions",
    "latest.admissions.admission_rate.overall,latest.admissions.sat_scores.average.overall"),
   ("costs",
    "latest.cost.tuition.in_state,latest.cost.tuition.out_of_state,latest.cost.net_price.public,latest.cost.net_price.private"),
   ("outcomes",
    "latest.completion.rate_suppressed.overall,latest.earnings.10_yrs_after_entry.median")]

/-- FIELDSETS[p].split of the source; profiles are constrained to the four
known names by the Literal type, so the lookup always hits. -/
def fieldsetFields (p : String) : List String :=
  splitComma ((FIELDSETS.lookup p).getD "")

/-- The elements of the set comprehension over the given profiles, listed
in first-seen order: the union of the field lists of the profiles with
duplicates collapsed. -/
def fieldUnion (profiles : List String) : List String :=
  dedupKeep (profiles.map fieldsetFields).flatten

/-- The comma join applied to an enumeration of the field set. -/
def joinComma (fields : List String) : String := String.intercalate "," fields

/-- A permutation of fieldUnion of basic and costs: the first two fields
swapped, as a different hash seed may enumerate the same set. -/
def fieldsSwapped : List String :=
  ["school.name", "id", "school.city", "school.state", "location.lat", "location.lon",
   "school.school_url", "latest.cost.tuition.in_state", "latest.cost.tuition.out_of_state",
   "latest.cost.net_price.public", "latest.cost.net_price.private"]

/-! ## School detail: argument validation and profile field union

Source: src/tools/school_detail.py.  The ids field is declared required
with Field(...), which only demands that the key be present: an empty list
passes validation, and STEP 2 then builds the id__in parameter by joining
it, yielding the empty string, before the network call is issued.  Unknown
profile names go through PROFILES.get(p, "") and contribute no fields. -/

/-- PROFILES of school_detail (the basic entry orders its fields
differently from FIELDSETS of schools_search). -/
def PROFILES : List (String × String) :=
  [("basic",
    "id,school.name,school.city,school.state,school.school_url,location.lat,location.lon"),
   ("admissions",
    "latest.admissions.admission_rate.overall,latest.admissions.sat_scores.average.overall"),
   ("costs",
    "latest.cost.tuition.in_state,latest.cost.tuition.out_of_state,latest.cost.net_price.public,latest.cost.net_price.private"),
   ("outcomes",
    "latest.completion.rate_suppressed.overall,latest.earnings.10_yrs_after_entry.median")]

/-- PROFILES.get(p, "").split(",") with the blank filter of the source:
an unknown profile name yields the empty string, which splits into one
blank field that the filter drops. -/
def profileFields (p : String) : List String :=
  (splitComma ((PROFILES.lookup p).getD "")).filter (fun f => !f.isEmpty)

/-- The elements of the selected_fields set of school_detail, in first-seen
order. -/
def detailFieldUnion (profiles : List String) : List String :=
  dedupKeep (profiles.map profileFields).flatten

/-- The raw input of SchoolDetailArgs: an absent field is None. -/
structure DetailRawInput where
  ids : Option (List Int)
  profiles : Option (List String)
deriving DecidableEq

/-- The validated SchoolDetailArgs model. -/
structure DetailArgs where
  ids : List Int
  profiles : List String
deriving DecidableEq

/-- Pydantic validation of SchoolDetailArgs: ids is required (the key must
be present) and profiles defaults to [basic]; no validator constrains the
content of either list, so an empty ids list is accepted. -/
def validateSchoolDetail (v : DetailRawInput) : Except String DetailArgs :=
  match v.ids with
  | none => .error "Field required: ids"
  | some ids => .ok { ids := ids, profiles := v.profiles.getD ["basic"] }

/-- The id__in parameter of STEP 2: the comma join of the ids. -/
def idInParam (ids : List Int) : String :=
  String.intercalate "," (ids.map toString)

theorem dedupInto_cons {α : Type} [DecidableEq α] (seen : List α) (a : α) (l : List α) :
    dedupInto seen (a :: l) = dedupInto (if a ∈ seen then seen else seen ++ [a]) l := rfl

theorem mem_dedupInto {α : Type} [DecidableEq α] (l : List α) :
    ∀ (seen : List α) (x : α), x ∈ dedupInto seen l ↔ x ∈ seen ∨ x ∈ l := by
  induction l with
  | nil => intro seen x; simp [dedupInto]
  | cons a l ih =>
    intro seen x
    rw [dedupInto_cons]
    by_cases ha : a ∈ seen
    · rw [if_pos ha, ih]
      constructor
      · rintro (h | h)
        · exact Or.inl h
        · exact Or.inr (List.mem_cons_of_mem a h)
      · rintro (h | h)
        · exact Or.inl h
        · rcases List.mem_cons.mp h with h | h
          · exact Or.inl (h ▸ ha)
          · exact Or.inr h
    · rw [if_neg ha, ih]
      simp only [List.mem_append, List.mem_singleton, List.mem_cons]
      tauto

theorem nodup_dedupInto {α : Type} [DecidableEq α] (l : List α) :
    ∀ seen : List α, seen.Nodup → (dedupInto seen l).Nodup := by
  induction l with
  | nil => intro seen h; exact h
  | cons a l ih =>
    intro seen h
    rw [dedupInto_cons]
    by_cases ha : a ∈ seen
    · rw [if_pos ha]; exact ih seen h
    · rw [if_neg ha]
      refine ih (seen ++ [a]) ?_
      simp [List.nodup_append, h, ha]

/-- Helper used to reason about how find? behaves on an appended list whose
first part misses the predicate. -/
theorem find?_append_of_none {α : Type} {p : α → Bool} {l₁ l₂ : List α}
    (h : l₁.find? p = none) : (l₁ ++ l₂).find? p = l₂.find? p := by
  rw [List.find?_append, h, Option.none_or]

/-- Helper used to reason about how find? behaves on an appended list whose
first part already yields a hit. -/
theorem find?_append_of_some {α : Type} {p : α → Bool} {l₁ l₂ : List α} {a : α}
    (h : l₁.find? p = some a) : (l₁ ++ l₂).find? p = some a := by
  rw [List.find?_append, h]
  rfl

/-! ### Grouping lemmas -/

theorem idsOf_addRow (cards : List ProgCard) (row : ProgRow) :
    idsOf (addRow cards row) =
      match row.id with
      | none => idsOf cards
      | some i => if i ∈ idsOf cards then idsOf cards else idsOf cards ++ [i] := by
  cases hid : row.id with
  | none => simp [addRow, hid]
  | some i =>
    simp only [addRow, hid]
    by_cases hmem : i ∈ idsOf cards
    · rw [if_pos hmem, if_pos hmem]
      unfold idsOf
      rw [List.map_map]
      refine List.map_congr_left ?_
      intro c _
      by_cases h : c.id = i <;> simp [h]
    · rw [if_neg hmem, if_neg hmem]
      simp [idsOf]

theorem idsOf_foldl (rows : List ProgRow) :
    ∀ acc : List ProgCard,
      idsOf (rows.foldl addRow acc) = dedupInto (idsOf acc) (rows.filterMap ProgRow.id) := by
  induction rows with
  | nil => intro acc; simp [dedupInto]
  | cons r rows ih =>
    intro acc
    rw [List.foldl_cons, ih, idsOf_addRow]
    cases hid : r.id with
    | none => simp [List.filterMap_cons, hid]
    | some i => simp [List.filterMap_cons, hid, dedupInto_cons]

theorem find?_id_map (u : ProgCard → ProgCard) (hu : ∀ c, (u c).id = c.id) (i : Int) :
    ∀ cards : List ProgCard,
      (cards.map u).find? (fun c => c.id == i) =
        (cards.find? (fun c => c.id == i)).map u := by
  intro cards
  induction cards with
  | nil => rfl
  | cons c cs ih =>
    simp only [List.map_cons, List.find?]
    rw [hu c]
    cases h : (c.id == i) <;> simp [h, ih]

theorem programsFor_addRow (cards : List ProgCard) (row : ProgRow) (i : Int) :
    programsFor (addRow cards row) i =
      programsFor cards i ++
        (if row.id == some i && contributes row then [progOf row] else []) := by
  cases hid : row.id with
  | none => simp [addRow, hid, programsFor]
  | some j =>
    simp only [addRow, hid]
    have hentry : (if ((some j : Option Int) == some i && contributes row) = true
        then [progOf row] else []) = if j = i then entryList row else [] := by
      by_cases hij : j = i
      · subst hij
        simp [entryList]
      · simp [Bool.and_eq_true, beq_iff_eq, hij]
    rw [hentry]
    by_cases hmem : j ∈ idsOf cards
    · rw [if_pos hmem]
      unfold programsFor
      rw [find?_id_map _ (fun c => by by_cases h : c.id = j <;> simp [h]) i cards]
      cases hfind : cards.find? (fun c => c.id == i) with
      | none =>
        by_cases hij : j = i
        · subst hij
          rcases List.mem_map.mp hmem with ⟨c, hc, hcid⟩
          have h2 : (cards.find? (fun c => c.id == j)).isSome :=
            List.find?_isSome.mpr ⟨c, hc, by simp [hcid]⟩
          rw [hfind] at h2
          simp at h2
        · simp [hij]
      | some c =>
        have hcid : c.id = i := by simpa using List.find?_some hfind
        by_cases hij : j = i
        · subst hij
          simp [hcid]
        · have hne : ¬ c.id = j := fun h => hij (h ▸ hcid)
          simp [hne, hij]
    · rw [if_neg hmem]
      unfold programsFor
      by_cases hij : j = i
      · subst hij
        have hnone : cards.find? (fun c => c.id == j) = none := by
          rw [List.find?_eq_none]
          intro c hc
          simp only [beq_iff_eq]
          exact fun hcj => hmem (List.mem_map.mpr ⟨c, hc, hcj⟩)
        rw [find?_append_of_none hnone, hnone]
        simp
      · cases hfind : cards.find? (fun c => c.id == i) with
        | none =>
          rw [find?_append_of_none hfind]
          simp [hij]
        | some c =>
          rw [find?_append_of_some hfind]
          simp [hij]

theorem programsFor_foldl (rows : List ProgRow) :
    ∀ (acc : List ProgCard) (i : Int),
      programsFor (rows.foldl addRow acc) i =
        programsFor acc i ++
          (rows.filter (fun r => r.id == some i && contributes r)).map progOf := by
  induction rows with
  | nil => intro acc i; simp
  | cons r rows ih =>
    intro acc i
    rw [List.foldl_cons, ih, programsFor_addRow, List.filter_cons]
    by_cases h : (r.id == some i && contributes r) = true
    · simp [h, List.append_assoc]
    · simp [h]

/-! ### Claim theorems about the grouping pass -/

/-- C1: the normalizer groups flat rows by institution id in one linear pass
(normalizePrograms is a single fold): rows with a null id are dropped, the
card list carries the distinct ids in first-seen order with one card per id
(the id list is the first-seen-order dedup of the ids of the rows, hence
without duplicates), and the card of institution i carries the program
entries of the rows of i, in row order.  For the rows with ids [10, 11, 10]
each carrying a program, the output is the two cards [10, 11] and card 10
carries the two program entries in row order. -/
theorem programs_search_grouping :
    (∀ rows : List ProgRow,
      idsOf (normalizePrograms rows) = dedupKeep (rows.filterMap ProgRow.id)) ∧
    (∀ rows : List ProgRow, (idsOf (normalizePrograms rows)).Nodup) ∧
    (∀ (rows : List ProgRow) (i : Int),
      programsFor (normalizePrograms rows) i =
        (rows.filter (fun r => r.id == some i && contributes r)).map progOf) ∧
    idsOf (normalizePrograms [exRow1, exRow2, exRow3]) = [10, 11] ∧
    programsFor (normalizePrograms [exRow1, exRow2, exRow3]) 10 =
      [progOf exRow1, progOf exRow3] := by
  have hids : ∀ rows : List ProgRow,
      idsOf (normalizePrograms rows) = dedupKeep (rows.filterMap ProgRow.id) := by
    intro rows
    have h := idsOf_foldl rows []
    simpa [normalizePrograms, dedupKeep, idsOf] using h
  refine ⟨hids, ?_, ?_, by decide, by decide⟩
  · intro rows
    rw [hids rows]
    exact nodup_dedupInto _ [] List.nodup_nil
  · intro rows i
    have h := programsFor_foldl rows [] i
    simpa [normalizePrograms, programsFor] using h

/-- C5: a row contributes a program entry to the card of its institution
exactly when its CIP code or its title is a non-empty string (the filter in
the general description below); a row with both blank adds nothing, while
the institution id still appears in the output whenever any row carries it.
The concrete instance: a blank row and a valid row for institution 7 yield
one card with exactly the one entry of the valid row. -/
theorem program_entry_contribution :
    (∀ (rows : List ProgRow) (i : Int),
      programsFor (normalizePrograms rows) i =
        (rows.filter (fun r =>
          r.id == some i && (truthyStr r.cip || truthyStr r.title))).map progOf) ∧
    (∀ (rows : List ProgRow) (i : Int),
      i ∈ idsOf (normalizePrograms rows) ↔ some i ∈ rows.map ProgRow.id) ∧
    programsFor (normalizePrograms [exBlankRow7, exGoodRow7]) 7 = [progOf exGoodRow7] ∧
    idsOf (normalizePrograms [exBlankRow7, exGoodRow7]) = [7] := by
  refine ⟨?_, ?_, by decide, by decide⟩
  · intro rows i
    have h := programsFor_foldl rows [] i
    simpa [normalizePrograms, programsFor, contributes] using h
  · intro rows i
    have h := idsOf_foldl rows []
    rw [normalizePrograms, h]
    rw [mem_dedupInto]
    simp [idsOf, List.mem_filterMap]

/-- C10: an institution whose rows all carry blank program data is not
dropped: its card is created on first sight of the id, and its program list
is empty. -/
theorem blank_institution_card_kept (rows : List ProgRow) (i : Int)
    (hmem : some i ∈ rows.map ProgRow.id)
    (hblank : ∀ r ∈ rows, r.id = some i → contributes r = false) :
    i ∈ idsOf (normalizePrograms rows) ∧ programsFor (normalizePrograms rows) i = [] := by
  constructor
  · have h := idsOf_foldl rows []
    rw [normalizePrograms, h, mem_dedupInto]
    right
    simp only [List.mem_filterMap]
    rcases List.mem_map.mp hmem with ⟨r, hr, hrid⟩
    exact ⟨r, hr, hrid⟩
  · have h := programsFor_foldl rows [] i
    have hfilter : rows.filter (fun r => r.id == some i && contributes r) = [] := by
      rw [List.filter_eq_nil_iff]
      intro r hr
      simp only [Bool.and_eq_true, beq_iff_eq, not_and]
      intro hrid
      rw [hblank r hr hrid]
      exact Bool.false_ne_true
    rw [normalizePrograms, h, hfilter]
    simp [programsFor]

/-- C10 witness: institution 5 appears with an empty program list although
its only row has a blank CIP code and a blank title. -/
theorem blank_institution_card_kept_witness :
    (5 : Int) ∈ idsOf (normalizePrograms [exBlankRow5]) ∧
      programsFor (normalizePrograms [exBlankRow5]) 5 = [] :=
  blank_institution_card_kept [exBlankRow5] 5 (by decide) (by decide)

/-- C2 counterexample: the filter with state = NY, latitude and longitude
populates two of the location modes of the claim, yet the validator accepts
it (has_state_only is defined to be false as soon as a coordinate is
present, so the signal count of the source is one). -/
theorem state_with_coordinates_passes_validation :
    claimPopulatedModes exStateWithCoords = 2 ∧
      isOkE (validateLocationMode exStateWithCoords) = true :=
  ⟨rfl, rfl⟩

/-- C2 as amended: validation succeeds exactly when the three signals of the
source (has_latlon, has_citystate, has_state_only) sum to one and, when the
coordinate signal is set, both coordinates are present.  Since has_state_only
is false whenever a coordinate is present, a state supplied together with
both coordinates passes validation. -/
theorem location_mode_validation_characterization (v : SchoolsRaw) :
    isOkE (validateLocationMode v) =
      (decide (modeCount v = 1) &&
        (!hasLatlon v || (v.latitude.isSome && v.longitude.isSome))) := by
  by_cases h1 : modeCount v = 1
  · cases hlat : v.latitude <;> cases hlon : v.longitude <;>
      simp [validateLocationMode, isOkE, hasLatlon, hlat, hlon, h1]
  · simp [validateLocationMode, isOkE, h1]

/-- C7: a filter supplying exactly one of latitude and longitude always
fails validation; when the city+state pair is not also supplied the failure
is the coordinate-pair error, which is distinct from the mode-selection
error raised when no location mode is selected (the all-empty filter). -/
theorem single_coordinate_fails_distinctly (v : SchoolsRaw)
    (h : v.latitude.isSome ≠ v.longitude.isSome) :
    isOkE (validateLocationMode v) = false ∧
    (hasCitystate v = false → validateLocationMode v = .error .coordPair) ∧
    validateLocationMode { state := none, city := none, latitude := none, longitude := none } =
      .error .modeSelection ∧
    LocError.coordPair ≠ LocError.modeSelection := by
  have hll : hasLatlon v = true := by
    unfold hasLatlon
    cases hlat : v.latitude.isSome <;> cases hlon : v.longitude.isSome <;>
      simp_all
  have hso : hasStateOnly v = false := by
    unfold hasStateOnly
    rw [hll]
    simp
  have hcoordNone : (v.latitude.isNone || v.longitude.isNone) = true := by
    cases hlat : v.latitude <;> cases hlon : v.longitude <;> simp_all
  refine ⟨?_, ?_, rfl, by decide⟩
  · by_cases hcs : hasCitystate v = true
    · have : modeCount v = 2 := by simp [modeCount, hll, hcs, hso]
      simp [validateLocationMode, this, isOkE]
    · have hcs2 : hasCitystate v = false := by simpa using hcs
      have : modeCount v = 1 := by simp [modeCount, hll, hcs2, hso]
      simp [validateLocationMode, this, hll, hcoordNone, isOkE]
  · intro hcs
    have : modeCount v = 1 := by simp [modeCount, hll, hcs, hso]
    simp [validateLocationMode, this, hll, hcoordNone]

/-- C7 witness: the latitude-only filter fails with the coordinate-pair
error. -/
theorem single_coordinate_fails_distinctly_witness :
    isOkE (validateLocationMode exLatOnly) = false ∧
      validateLocationMode exLatOnly = .error .coordPair := by
  have h := single_coordinate_fails_distinctly exLatOnly (by simp [exLatOnly])
  exact ⟨h.1, h.2.1 rfl⟩

/-- C3: the merge function itself behaves as the claim states — raw [3]
with named [bachelor] gives [3], raw [2] with named [bachelor, unknown]
gives [2, 3] with the unknown name ignored — but the validated model never
receives the named levels: the award_levels field validator reads
award_levels_named through ValidationInfo.data, which only holds fields
declared before award_levels, so the validated award_levels stays [2] and
the named levels are silently lost. -/
theorem award_levels_named_never_merged :
    mergeAwardLevels (some [3]) (some ["bachelor"]) = some [3] ∧
    mergeAwardLevels (some [2]) (some ["bachelor", "unknown-level"]) = some [2, 3] ∧
    mergeAwardLevels none (some ["BACHELOR"]) = some [3] ∧
    validateProgramsArgs exMergeArgs =
      .ok { cipPre := some "11.01", programText := none, state := none, control := none,
            awardLevels := some [2],
            awardLevelsNamed := some ["bachelor", "unknown-level"] } := by
  refine ⟨by decide, by decide, by decide, rfl⟩

/-- C4 counterexample: a filter whose title keyword is whitespace-only (and
so blank after trimming) passes validation, because _at_least_one_filter
runs on the raw values before _strip_text: the raw string is truthy.  The
keyword is stripped to the empty string afterwards. -/
theorem whitespace_program_text_passes_validation :
    pyStrip "   " = "" ∧
    validateProgramsArgs exBlankText =
      .ok { cipPre := none, programText := some "", state := none, control := none,
            awardLevels := none, awardLevelsNamed := none } :=
  ⟨rfl, rfl⟩

/-- C4 as amended: validation fails exactly when both the CIP code filter
and the title keyword are falsy as supplied (absent or the empty string),
with no trimming applied before the check; a whitespace-only keyword counts
as present and passes, and is stripped only afterwards, so the validated
keyword is the trimmed raw value whenever validation succeeds. -/
theorem program_filter_checks_raw_truthiness (v : ProgramsRawInput) :
    isOkE (validateProgramsArgs v) = (truthyStr v.cipPre || truthyStr v.programText) ∧
    (validateProgramsArgs v).toOption.map ProgramsArgs.programText =
      (if (truthyStr v.cipPre || truthyStr v.programText) = true
       then some (stripText v.programText) else none) := by
  by_cases h : (truthyStr v.cipPre || truthyStr v.programText) = true
  · simp [validateProgramsArgs, h, isOkE, Except.toOption]
  · have h2 : (truthyStr v.cipPre || truthyStr v.programText) = false := by
      simpa using h
    simp [validateProgramsArgs, h2, isOkE, Except.toOption]

/-- C6: an upstream response with zero rows raises no error — both
post-fetch functions are total and return the fixed no-results message —
but neither tool produces the empty card list with a total-0 metadata the
claim describes: the zero-row branch returns a message string instead of a
cards-plus-metadata value. -/
theorem empty_results_yield_message :
    schoolsPostFetch { results := [], metadata := none } 0 =
      .noMatches "No schools found matching your criteria. Try broadening your search parameters." ∧
    (∀ cards total page,
      schoolsPostFetch { results := [], metadata := none } 0 ≠ .summary cards total page) ∧
    programsPostFetch { results := [], metadata := none } 0 =
      .noMatches "No programs found matching your criteria. Try broadening your search parameters." := by
  refine ⟨rfl, ?_, rfl⟩
  intro cards total page
  simp [schoolsPostFetch]

/-- C8: the field set of the profiles [basic, costs] is the duplicate-free
union of the two field lists, but the joined string is not determined by
the profile list: two enumerations of the same set — both permutations of
each other — join to different fields strings, so the output depends on
the iteration order of the Python set rather than on the input alone. -/
theorem fields_join_order_underdetermined :
    (fieldUnion ["basic", "costs"]).Nodup ∧
    fieldsSwapped.Perm (fieldUnion ["basic", "costs"]) ∧
    joinComma fieldsSwapped ≠ joinComma (fieldUnion ["basic", "costs"]) := by
  refine ⟨by decide, ?_, by decide⟩
  have h : fieldUnion ["basic", "costs"] =
      "id" :: "school.name" :: ["school.city", "school.state", "location.lat", "location.lon",
        "school.school_url", "latest.cost.tuition.in_state", "latest.cost.tuition.out_of_state",
        "latest.cost.net_price.public", "latest.cost.net_price.private"] := by decide
  rw [h]
  exact List.Perm.swap "id" "school.name" _

/-- C9: the empty ids list passes validation — Field(...) only requires the
key to be present — and the tool proceeds to build an id__in parameter that
is the empty string for the network call, instead of rejecting the request;
the second half of the claim does hold: an unknown profile name contributes
no fields and raises no error. -/
theorem empty_ids_list_accepted :
    validateSchoolDetail { ids := some [], profiles := some ["basic"] } =
      .ok { ids := [], profiles := ["basic"] } ∧
    idInParam [] = "" ∧
    validateSchoolDetail { ids := none, profiles := some ["basic"] } =
      .error "Field required: ids" ∧
    profileFields "not-a-profile" = [] ∧
    detailFieldUnion ["basic", "not-a-profile"] = detailFieldUnion ["basic"] := by
  exact ⟨rfl, rfl, rfl, by decide, by decide⟩

end EduAssist
